import Mathlib

/-!
Verification of the specification-processing and code-generation pipeline of
the gulp-ts-swagger plugin (src/index.ts), as a shallow embedding in Lean.

JavaScript values handled by the plugin are modelled as follows:
* a JSON value is the inductive `Json` below; a `$ref` reference site is, as
  in the actual serialized documents, a JSON object carrying a `$ref` key;
* a JavaScript object whose shape is fixed by the TypeScript interfaces of
  the source becomes a Lean structure, with `Option` marking fields the code
  guards against being `undefined`;
* `JSON.stringify` is mirrored by `stringify`;
* the external collaborators (the resolution engine, the conformance
  checker, the code-emission engine, the template file loader) are passed in
  as function parameters / pre-computed results, since the source treats
  them as opaque capabilities.
-/

/-- A JSON value.  Numbers are modelled as integers; the documents the
plugin manipulates are trees of objects, arrays and scalars. -/
inductive Json where
  | null : Json
  | bool (b : Bool) : Json
  | num (n : Int) : Json
  | str (s : String) : Json
  | arr (items : List Json) : Json
  | obj (fields : List (String × Json)) : Json
deriving Repr

/-- One hexadecimal digit, lower case, as produced by JSON escapes. -/
def hexDigit (n : Nat) : String :=
  String.mk [Char.ofNat (if n < 10 then 48 + n else 87 + n)]

/-- Escaping of a single character inside a JSON string literal, as
performed by `JSON.stringify`. -/
def escapeJsonChar (c : Char) : String :=
  if c = '"' then "\\\""
  else if c = '\\' then "\\\\"
  else if c = '\n' then "\\n"
  else if c = '\r' then "\\r"
  else if c = '\t' then "\\t"
  else if c = '\x08' then "\\b"
  else if c = '\x0c' then "\\f"
  else if c.toNat < 32 then "\\u00" ++ hexDigit (c.toNat / 16) ++ hexDigit (c.toNat % 16)
  else String.mk [c]

/-- A JSON string literal with its surrounding quotes, as produced by
`JSON.stringify` for a string value. -/
def quoteJson (s : String) : String :=
  "\"" ++ String.join (s.data.map escapeJsonChar) ++ "\""

mutual

/-- `JSON.stringify` on a JSON value (no pretty-printing, as in the
source's `JSON.stringify(swaggerObject)` calls). -/
def stringify : Json → String
  | Json.null => "null"
  | Json.bool b => if b then "true" else "false"
  | Json.num n => toString n
  | Json.str s => quoteJson s
  | Json.arr items => "[" ++ stringifyItems items ++ "]"
  | Json.obj fields => "\x7b" ++ stringifyFields fields ++ "\x7d"

/-- Comma-separated serialization of array items. -/
def stringifyItems : List Json → String
  | [] => ""
  | [x] => stringify x
  | x :: y :: rest => stringify x ++ "," ++ stringifyItems (y :: rest)

/-- Comma-separated serialization of object fields. -/
def stringifyFields : List (String × Json) → String
  | [] => ""
  | [(k, v)] => quoteJson k ++ ":" ++ stringify v
  | (k, v) :: f :: rest => quoteJson k ++ ":" ++ stringify v ++ "," ++ stringifyFields (f :: rest)

end

mutual

/-- Whether a JSON value still contains a reference site anywhere, i.e. an
object with a `$ref` key.  This is the notion of "contains a reference" for
a serialized swagger document. -/
def hasRef : Json → Bool
  | Json.obj fields => hasRefFields fields
  | Json.arr items => hasRefItems items
  | _ => false

/-- `hasRef` over the items of an array. -/
def hasRefItems : List Json → Bool
  | [] => false
  | x :: rest => hasRef x || hasRefItems rest

/-- `hasRef` over the fields of an object. -/
def hasRefFields : List (String × Json) → Bool
  | [] => false
  | (k, v) :: rest => k == "$ref" || hasRef v || hasRefFields rest

end

/-- First-match association lookup: JavaScript property access on an object
represented as its (ordered, key-unique) field list. -/
def alookup {β : Type} (k : String) : List (String × β) → Option β
  | [] => none
  | (k2, v) :: rest => if k2 == k then some v else alookup k rest

/-- A single parameter of an operation: its `in` location tag and, for body
parameters, the attached value schema.  (Only the fields the plugin reads
are modelled; `in` is a Lean keyword, hence `paramIn`.) -/
structure Param where
  paramIn : String
  schema : Option Json
deriving Repr

/-- One response definition: an optional attached value schema. -/
structure ResponseDef where
  schema : Option Json
deriving Repr

/-- `SwaggerMethodName` of the source: one operation, with its (possibly
absent) parameter list and (possibly absent) response mapping.  Response
mappings and path/method collections are ordered association lists, matching
JavaScript object key iteration order. -/
structure SwaggerMethodName where
  parameters : Option (List Param)
  responses : Option (List (String × ResponseDef))
deriving Repr

/-- `SwaggerObject` of the source: the specification document as far as the
plugin's own code inspects it.  `paths` may be absent (the `for..in` loop
then iterates zero times) and an individual path's value may be null (the
code guards it with `|| \x7b\x7d`). -/
structure SwaggerObject where
  paths : Option (List (String × Option (List (String × SwaggerMethodName))))
deriving Repr

/-- The per-operation entry of the Schema Index:
`request` is the schema of the first body parameter (absent when there is
none or it carries no schema), `responses` maps every declared status-code
key to its schema or to the empty object. -/
structure MethodSchemas where
  request : Option Json
  responses : List (String × Json)
deriving Repr

/-- The Schema Index: path → method → `MethodSchemas`. -/
abbrev SchemaIndex := List (String × List (String × MethodSchemas))

/-- The body of the source's `reduceMethods` callback in `buildJSONSchema`
(src/index.ts lines 86-105): derive one operation's `MethodSchemas`.
`(parameters || []).filter(p => p.in === "body")[0] || \x7b\x7d` followed by
`.schema` yields the schema of the first body parameter, or `undefined`;
`responses || \x7b\x7d` is walked key by key, each value's `schema || \x7b\x7d`
recorded. -/
def buildMethodSchemas (op : SwaggerMethodName) : MethodSchemas :=
  { request :=
      (((op.parameters.getD []).filter (fun p => p.paramIn == "body")).head?).bind
        (fun p => p.schema),
    responses :=
      (op.responses.getD []).map (fun kr => (kr.1, kr.2.schema.getD (Json.obj []))) }

/-- `buildJSONSchema` (src/index.ts lines 81-111): the Schema Extractor.
Walks every path of `swaggerObject.paths` (zero iterations when `paths` is
absent), defaults a null path value to the empty method collection, and maps
every method to its `MethodSchemas`. -/
def buildJSONSchema (swaggerObject : SwaggerObject) : SchemaIndex :=
  (swaggerObject.paths.getD []).map (fun kv =>
    (kv.1, (kv.2.getD []).map (fun km => (km.1, buildMethodSchemas km.2))))

/-- Serialization shape of a `MethodSchemas` value: `JSON.stringify` omits
the `request` key when its value is `undefined`. -/
def methodSchemasToJson (ms : MethodSchemas) : Json :=
  Json.obj ((match ms.request with
    | some s => [("request", s)]
    | none => []) ++ [("responses", Json.obj ms.responses)])

/-- Serialization shape of the Schema Index as a JSON value. -/
def schemaIndexToJson (idx : SchemaIndex) : Json :=
  Json.obj (idx.map (fun kv =>
    (kv.1, Json.obj (kv.2.map (fun km => (km.1, methodSchemasToJson km.2))))))

/-- Serialization shape of one parameter. -/
def paramToJson (p : Param) : Json :=
  Json.obj ([("in", Json.str p.paramIn)] ++ (match p.schema with
    | some s => [("schema", s)]
    | none => []))

/-- Serialization shape of one response definition. -/
def responseDefToJson (r : ResponseDef) : Json :=
  Json.obj (match r.schema with
    | some s => [("schema", s)]
    | none => [])

/-- Serialization shape of one operation. -/
def operationToJson (op : SwaggerMethodName) : Json :=
  Json.obj ((match op.parameters with
    | some ps => [("parameters", Json.arr (ps.map paramToJson))]
    | none => []) ++ (match op.responses with
    | some rs => [("responses", Json.obj (rs.map (fun kr => (kr.1, responseDefToJson kr.2))))]
    | none => []))

/-- The specification document as the JSON value `JSON.stringify` sees:
absent fields are omitted, a null path value serializes as `null`. -/
def swaggerToJson (sw : SwaggerObject) : Json :=
  Json.obj (match sw.paths with
    | some l =>
        [("paths", Json.obj (l.map (fun kv =>
          (kv.1, match kv.2 with
            | some ms => Json.obj (ms.map (fun km => (km.1, operationToJson km.2)))
            | none => Json.null))))]
    | none => [])

/-- One validation finding of the external conformance checker: a path of
segments within the document and a message. -/
structure Finding where
  path : List String
  message : String
deriving Repr

/-- The result object delivered by `swaggerTools.validate` when it reports
findings: ordered error and warning sequences. -/
structure ValidationResult where
  errors : List Finding
  warnings : List Finding
deriving Repr

/-- `CodeGenTemplate` of the source.  The interface declares the three
fields as strings, but the code tolerates absent entries (loading an absent
entry yields the empty string), hence `Option`. -/
structure CodeGenTemplate where
  «class» : Option String
  method : Option String
  request : Option String
deriving Repr

/-- The `template` field of `CodeGenSettings` is a union: a single template
file path, or a three-part template record. -/
inductive TemplateArg where
  | str (s : String) : TemplateArg
  | obj (t : CodeGenTemplate) : TemplateArg
deriving Repr

/-- The `mustache` context record.  The three fields the builder injects are
explicit; `other` carries any further caller-supplied template-context
fields untouched by the plugin. -/
structure Mustache where
  swaggerObject : Option SwaggerObject
  swaggerJSON : Option String
  JSONSchemas : Option String
  other : List (String × Json)
deriving Repr

/-- `CodeGenSettings` of the source. -/
structure CodeGenSettings where
  type : Option String
  moduleName : Option String
  className : Option String
  template : Option TemplateArg
  esnext : Option Bool
  swagger : Option SwaggerObject
  mustache : Option Mustache
deriving Repr

/-- The mustache record with no fields set (`\x7b\x7d` in the source). -/
def emptyMustache : Mustache :=
  { swaggerObject := none, swaggerJSON := none, JSONSchemas := none, other := [] }

/-- `loadTemplateFile` (src/index.ts lines 16-28).  `readFile` models
`fs.readFileSync` as total text retrieval.  A non-string / empty path yields
the empty string; a loaded file that is empty raises the configuration
error. -/
def loadTemplateFile (readFile : String → String) (templateFile : Option String)
    (templateName : String) : Except String String :=
  match templateFile with
  | none => Except.ok ""
  | some f =>
      if f.length = 0 then Except.ok ""
      else
        let templateContent := readFile f
        if templateContent.length = 0 then
          Except.error ("Could not load " ++ templateName ++
            " template file. Please make sure path to file is correct.")
        else Except.ok templateContent

namespace GulpTypeScriptSwaggerFile

/-- Outcome of one pipeline invocation past configuration:
`failed msg` models `this.callback(new PluginError(msg))` with no file
pushed; `emitted a` models pushing a file whose contents are `a` and then
`this.callback()`; `crashed` models the uncaught TypeError of indexing an
undefined `type` (unreachable from the plugin's own configuration, which
always sets `type` when codegen is enabled). -/
inductive PipelineResult where
  | failed (msg : String) : PipelineResult
  | emitted (artifact : String) : PipelineResult
  | crashed : PipelineResult
deriving Repr

/-- `getCodegenFunction` (src/index.ts lines 174-180), as a function of the
settings' `type` string (nonempty for each of the three modes):
`"get" + type[0].toUpperCase() + type.slice(1, type.length) + "Code"`.
`type[0].toUpperCase()` is the first character uppercased, `Char.toUpper`
for the ASCII mode names. -/
def getCodegenFunction (ty : String) : String :=
  "get" ++ String.mk ((ty.data.take 1).map Char.toUpper) ++
    String.mk (ty.data.drop 1) ++ "Code"

/-- `getCodegenSettings` (src/index.ts lines 182-196): force `esnext`,
store the document under `swagger`, delete `type`, and inject the document,
its JSON serialization and the serialized Schema Index into the mustache
context (creating the context record when absent). -/
def getCodegenSettings (settings : CodeGenSettings) (swaggerObject : SwaggerObject) :
    CodeGenSettings :=
  let m := settings.mustache.getD emptyMustache
  { settings with
      esnext := some true,
      swagger := some swaggerObject,
      type := none,
      mustache := some { m with
        swaggerObject := some swaggerObject,
        swaggerJSON := some (stringify (swaggerToJson swaggerObject)),
        JSONSchemas := some (stringify (schemaIndexToJson (buildJSONSchema swaggerObject))) } }

/-- `parseSchema2` (src/index.ts lines 198-220).  `codeGen` models the
external emission engine `CodeGen`, a family of entry points indexed by
name.  In codegen mode the entry point named by `getCodegenFunction` is
invoked on the built settings; otherwise the artifact is
`JSON.stringify(swaggerObject)`.  The produced file is pushed and the
callback signalled (`emitted`). -/
def parseSchema2 (useCodeGen : Bool) (codeGenSettings : CodeGenSettings)
    (codeGen : String → CodeGenSettings → String) (swaggerObject : SwaggerObject) :
    PipelineResult :=
  if useCodeGen then
    match codeGenSettings.type with
    | some ty =>
        PipelineResult.emitted
          (codeGen (getCodegenFunction ty) (getCodegenSettings codeGenSettings swaggerObject))
    | none => PipelineResult.crashed
  else
    PipelineResult.emitted (stringify (swaggerToJson swaggerObject))

/-- `validateSchema` (src/index.ts lines 153-172), the Validation Gate.
`err` and `result` are the two arguments of the `swaggerTools.validate`
callback.  When `result` is defined, findings are printed (logging only —
`printErrors` / `printWarnings` affect no control flow) and the pipeline
aborts with the fixed message exactly when the error list is nonempty;
otherwise — including when the checker itself failed, i.e. `err` is set and
`result` is undefined — control falls through to `parseSchema2`.  Note that
the `err` argument is never inspected, mirroring the source. -/
def validateSchema (useCodeGen : Bool) (codeGenSettings : CodeGenSettings)
    (codeGen : String → CodeGenSettings → String) (swaggerObject : SwaggerObject)
    (err : Option String) (result : Option ValidationResult) : PipelineResult :=
  match result with
  | some r =>
      if r.errors.length > 0 then
        PipelineResult.failed "The Swagger schema is invalid"
      else
        parseSchema2 useCodeGen codeGenSettings codeGen swaggerObject
  | none => parseSchema2 useCodeGen codeGenSettings codeGen swaggerObject

/-- `process` followed by `parseSchema` (src/index.ts lines 124-151).
`dereferenced` is the outcome of the external partial-resolution call
`swaggerParser.dereference(file, \x7b $refs: \x7b internal: false \x7d \x7d, cb)`
— cross-document references resolved, intra-document references left
intact; an error there aborts with `callback(PluginError(error))`.
`check` models `swaggerTools.validate`, yielding the `(err, result)`
callback pair for the partially-resolved document. -/
def process (useCodeGen : Bool) (codeGenSettings : CodeGenSettings)
    (codeGen : String → CodeGenSettings → String)
    (dereferenced : Except String SwaggerObject)
    (check : SwaggerObject → Option String × Option ValidationResult) : PipelineResult :=
  match dereferenced with
  | Except.error e => PipelineResult.failed e
  | Except.ok swaggerObject =>
      validateSchema useCodeGen codeGenSettings codeGen swaggerObject
        (check swaggerObject).1 (check swaggerObject).2

end GulpTypeScriptSwaggerFile

/-- `GultTsSwaggerOptions` of the source (the original's spelling). -/
structure GultTsSwaggerOptions where
  filename : Option String
  codegen : Option CodeGenSettings
deriving Repr

/-- The first argument of `gulpSwagger`: either a (possibly undefined)
filename string, or the options record itself. -/
inductive GulpFirstArg where
  | name (filename : Option String) : GulpFirstArg
  | opts (options : GultTsSwaggerOptions) : GulpFirstArg
deriving Repr

/-- The configuration the plugin closes over once `gulpSwagger` returns:
the output filename, whether codegen is enabled, and the normalized codegen
settings. -/
structure GulpConfig where
  filename : String
  useCodeGen : Bool
  codeGenSettings : Option CodeGenSettings
deriving Repr

/-- JavaScript falsiness of the filename value: `undefined` or `""`. -/
def strFalsy : Option String → Bool
  | none => true
  | some s => s.length == 0

/-- JavaScript falsiness of the `template` field: `undefined` or the empty
string (a template record is always truthy). -/
def templateFalsy : Option TemplateArg → Bool
  | none => true
  | some (TemplateArg.str s) => s.length == 0
  | some (TemplateArg.obj _) => false

/-- `gulpSwagger` (src/index.ts lines 245-307), configuration phase: runs
before any document is read (the returned stream handler is what later
processes documents).  An object first argument becomes the options record
and supplies the filename; a falsy filename and a custom codegen without a
template are immediate configuration errors; codegen defaults are applied
and the template union is normalized to a three-part record. -/
def gulpSwagger (readFile : String → String) (filenameArg : GulpFirstArg)
    (optionsArg : Option GultTsSwaggerOptions) : Except String GulpConfig :=
  let fo : Option String × Option GultTsSwaggerOptions :=
    match filenameArg with
    | GulpFirstArg.opts o => (o.filename, some o)
    | GulpFirstArg.name s => (s, optionsArg)
  let filename := fo.1
  if strFalsy filename then
    Except.error "A file name is required"
  else
    let options := fo.2.getD { filename := none, codegen := none }
    let useCodeGen := options.codegen.isSome
    match options.codegen with
    | none =>
        Except.ok { filename := filename.getD "", useCodeGen := useCodeGen,
                    codeGenSettings := none }
    | some cg0 =>
        let cg1 : CodeGenSettings :=
          { cg0 with
              type := some (cg0.type.getD "custom"),
              moduleName := some (cg0.moduleName.getD "API"),
              className := some (cg0.className.getD "API") }
        if cg1.type == some "custom" && templateFalsy cg1.template then
          Except.error "Templates are mandatory for a custom codegen"
        else
          match cg1.template with
          | some (TemplateArg.str t) => do
              let template ← loadTemplateFile readFile (some t) "class"
              Except.ok { filename := filename.getD "", useCodeGen := useCodeGen,
                          codeGenSettings := some { cg1 with template := some (TemplateArg.obj
                            { «class» := some template, method := some "", request := some "" }) } }
          | some (TemplateArg.obj t) => do
              let c ← loadTemplateFile readFile t.«class» "class"
              let m ← loadTemplateFile readFile t.method "method"
              let r ← loadTemplateFile readFile t.request "request"
              Except.ok { filename := filename.getD "", useCodeGen := useCodeGen,
                          codeGenSettings := some { cg1 with template := some (TemplateArg.obj
                            { «class» := some c, method := some m, request := some r }) } }
          | none =>
              Except.ok { filename := filename.getD "", useCodeGen := useCodeGen,
                          codeGenSettings := some cg1 }

/-- Property access chain `swaggerObject.paths[p][m]`: the operation stored
for path `p` and method `m`, when present. -/
def docLookup (sw : SwaggerObject) (p m : String) : Option SwaggerMethodName :=
  (alookup p (sw.paths.getD [])).bind (fun pv => alookup m (pv.getD []))

/-- Access into a Schema Index: the `MethodSchemas` entry stored for path
`p` and method `m`, when present. -/
def schemaIndexLookup (idx : SchemaIndex) (p m : String) : Option MethodSchemas :=
  (alookup p idx).bind (fun ms => alookup m ms)

/-- Codegen settings record with every field left unset. -/
def emptySettings : CodeGenSettings :=
  { type := none, moduleName := none, className := none, template := none,
    esnext := none, swagger := none, mustache := none }

/-- A small valid document: one operation `GET /items` whose `200` response
carries the schema `\x7b"type":"array"\x7d` (the spec's scenario B). -/
def exDoc : SwaggerObject :=
  { paths := some [("/items", some [("get",
      { parameters := none,
        responses := some [("200",
          { schema := some (Json.obj [("type", Json.str "array")]) })] })])] }

/-- A partially-resolved document in which an intra-document reference
survives: the `200` response schema of `GET /pets` is the reference site
`\x7b"$ref":"#/definitions/Pet"\x7d`. -/
def exRefDoc : SwaggerObject :=
  { paths := some [("/pets", some [("get",
      { parameters := none,
        responses := some [("200",
          { schema := some (Json.obj [("$ref", Json.str "#/definitions/Pet")]) })] })])] }

/-- A sample conformance finding. -/
def exFinding : Finding := { path := ["paths"], message := "bad" }

/-- Checker result carrying one error and no warning. -/
def exErrResult : ValidationResult := { errors := [exFinding], warnings := [] }

/-- Checker result carrying no error and one warning. -/
def exWarnResult : ValidationResult := { errors := [], warnings := [exFinding] }

/-- A query-located parameter. -/
def exQueryParam : Param := { paramIn := "query", schema := none }

/-- First body-located parameter, schema `"A"`. -/
def exBodyParam1 : Param := { paramIn := "body", schema := some (Json.str "A") }

/-- Second body-located parameter, schema `"B"`. -/
def exBodyParam2 : Param := { paramIn := "body", schema := some (Json.str "B") }

/-- An operation declaring a query parameter followed by two body-located
parameters (malformed but possible input). -/
def exTwoBodyOp : SwaggerMethodName :=
  { parameters := some [exQueryParam, exBodyParam1, exBodyParam2], responses := none }

/-- A document containing `exTwoBodyOp` under `POST /x`. -/
def exTwoBodyDoc : SwaggerObject :=
  { paths := some [("/x", some [("post", exTwoBodyOp)])] }

/-- The operation stored in `exDoc`. -/
def exItemsOp : SwaggerMethodName :=
  { parameters := none,
    responses := some [("200",
      { schema := some (Json.obj [("type", Json.str "array")]) })] }

/-- Caller settings that explicitly request `esnext := false`. -/
def exEsnextFalseSettings : CodeGenSettings :=
  { type := some "node", moduleName := some "M", className := some "C", template := none,
    esnext := some false, swagger := none, mustache := none }

theorem alookup_map_methods (m : String) (ms : List (String × SwaggerMethodName)) :
    alookup m (ms.map (fun km => (km.1, buildMethodSchemas km.2))) =
      (alookup m ms).map buildMethodSchemas := by
  induction ms with
  | nil => rfl
  | cons hd tl ih =>
      obtain ⟨k2, v⟩ := hd
      simp only [List.map_cons, alookup]
      by_cases h : k2 == m
      · simp [h]
      · simp [h, ih]

theorem alookup_map_paths (p : String)
    (l : List (String × Option (List (String × SwaggerMethodName)))) :
    alookup p (l.map (fun kv =>
        (kv.1, (kv.2.getD []).map (fun km => (km.1, buildMethodSchemas km.2))))) =
      (alookup p l).map (fun pv =>
        (pv.getD []).map (fun km => (km.1, buildMethodSchemas km.2))) := by
  induction l with
  | nil => rfl
  | cons hd tl ih =>
      obtain ⟨k2, v⟩ := hd
      simp only [List.map_cons, alookup]
      by_cases h : k2 == p
      · simp [h]
      · simp [h, ih]

theorem alookup_map_responses (code : String) (rs : List (String × ResponseDef)) :
    alookup code (rs.map (fun kr => (kr.1, kr.2.schema.getD (Json.obj [])))) =
      (alookup code rs).map (fun rdef => rdef.schema.getD (Json.obj [])) := by
  induction rs with
  | nil => rfl
  | cons hd tl ih =>
      obtain ⟨k2, v⟩ := hd
      simp only [List.map_cons, alookup]
      by_cases h : k2 == code
      · simp [h]
      · simp [h, ih]

theorem parseSchema2_ne_failed (useCodeGen : Bool) (settings : CodeGenSettings)
    (codeGen : String → CodeGenSettings → String) (sw : SwaggerObject) (msg : String) :
    GulpTypeScriptSwaggerFile.parseSchema2 useCodeGen settings codeGen sw ≠
      GulpTypeScriptSwaggerFile.PipelineResult.failed msg := by
  unfold GulpTypeScriptSwaggerFile.parseSchema2
  cases useCodeGen with
  | false => simp
  | true => cases settings.type <;> simp

theorem schemaIndexLookup_build (sw : SwaggerObject) (p m : String) :
    schemaIndexLookup (buildJSONSchema sw) p m = (docLookup sw p m).map buildMethodSchemas := by
  unfold schemaIndexLookup buildJSONSchema docLookup
  rw [alookup_map_paths]
  cases alookup p (sw.paths.getD []) with
  | none => rfl
  | some pv =>
      simp only [Option.map_some', Option.some_bind]
      rw [alookup_map_methods]

/-- C1: the claim says a failure of the conformance-checker call itself
(callback invoked with an error and no result) aborts the pipeline with the
underlying error surfaced.  The code contradicts this — and its own comment
"Now that we know for sure the schema is 100% valid" — because
`validateSchema` never inspects its `err` argument: with `err` set and
`result` undefined the guard `typeof result !== "undefined"` is skipped and
the run falls through to `parseSchema2`, emitting an artifact.  Evaluated
here at a concrete failing input: checker fails with "validator crashed",
yet the invocation emits the serialized document instead of failing. -/
theorem checker_failure_is_ignored :
    GulpTypeScriptSwaggerFile.process false emptySettings (fun _ _ => "")
      (Except.ok exDoc) (fun _ => (some "validator crashed", none)) =
    GulpTypeScriptSwaggerFile.PipelineResult.emitted (stringify (swaggerToJson exDoc)) := rfl

/-- C2: the claim says a full-resolution stage runs after the gate reports
continue, so no reference of any kind reaches extraction, settings build or
serialization.  The code contradicts this — and its own comment
"dereference internal $refs as well" — because `parseSchema2` performs no
dereference at all: the partially-resolved document (internal `$ref` sites
intact) is consumed directly.  Evaluated at a concrete input whose `200`
response schema is the reference site `\x7b"$ref":"#/definitions/Pet"\x7d`
and which validates cleanly: the emitted artifact is the serialization of
that same document, the reference is still present in it, and the settings
builder stores the same unresolved document for the emission engine. -/
theorem no_full_resolution_ref_survives :
    GulpTypeScriptSwaggerFile.process false emptySettings (fun _ _ => "")
      (Except.ok exRefDoc) (fun _ => (none, none)) =
      GulpTypeScriptSwaggerFile.PipelineResult.emitted (stringify (swaggerToJson exRefDoc)) ∧
    hasRef (swaggerToJson exRefDoc) = true ∧
    (GulpTypeScriptSwaggerFile.getCodegenSettings emptySettings exRefDoc).swagger =
      some exRefDoc := by
  refine ⟨rfl, by decide, rfl⟩

/-- C3: the Validation Gate aborts exactly when the checker's returned
error set is nonempty.  With at least one error the run fails with the
fixed message "The Swagger schema is invalid" (so nothing downstream of the
gate — in particular no emission — happens); with zero errors the run
proceeds to `parseSchema2` whatever the warnings, and in raw-JSON mode
emits the serialized document, in codegen mode the emission engine's
output. -/
theorem validation_gate_aborts_iff_errors (useCodeGen : Bool) (settings : CodeGenSettings)
    (codeGen : String → CodeGenSettings → String) (sw : SwaggerObject)
    (err : Option String) (r : ValidationResult) :
    (GulpTypeScriptSwaggerFile.validateSchema useCodeGen settings codeGen sw err (some r) =
        GulpTypeScriptSwaggerFile.PipelineResult.failed "The Swagger schema is invalid" ↔
      r.errors ≠ []) ∧
    (r.errors = [] →
      GulpTypeScriptSwaggerFile.validateSchema useCodeGen settings codeGen sw err (some r) =
        GulpTypeScriptSwaggerFile.parseSchema2 useCodeGen settings codeGen sw) ∧
    (r.errors = [] →
      GulpTypeScriptSwaggerFile.validateSchema false settings codeGen sw err (some r) =
        GulpTypeScriptSwaggerFile.PipelineResult.emitted (stringify (swaggerToJson sw))) ∧
    (r.errors = [] → ∀ ty, settings.type = some ty →
      GulpTypeScriptSwaggerFile.validateSchema true settings codeGen sw err (some r) =
        GulpTypeScriptSwaggerFile.PipelineResult.emitted
          (codeGen (GulpTypeScriptSwaggerFile.getCodegenFunction ty)
            (GulpTypeScriptSwaggerFile.getCodegenSettings settings sw))) := by
  have hval : ∀ u : Bool,
      GulpTypeScriptSwaggerFile.validateSchema u settings codeGen sw err (some r) =
        if r.errors.length > 0 then
          GulpTypeScriptSwaggerFile.PipelineResult.failed "The Swagger schema is invalid"
        else GulpTypeScriptSwaggerFile.parseSchema2 u settings codeGen sw := fun u => rfl
  refine ⟨?_, ?_, ?_, ?_⟩
  · rw [hval]
    constructor
    · intro h hnil
      rw [hnil] at h
      simp only [List.length_nil, lt_irrefl, if_false] at h
      exact parseSchema2_ne_failed useCodeGen settings codeGen sw _ h
    · intro hne
      have : 0 < r.errors.length := List.length_pos.mpr hne
      simp [this]
  · intro hnil
    rw [hval]
    simp [hnil]
  · intro hnil
    rw [hval]
    simp [hnil, GulpTypeScriptSwaggerFile.parseSchema2]
  · intro hnil ty hty
    rw [hval]
    simp [hnil, GulpTypeScriptSwaggerFile.parseSchema2, hty]

/-- Witness for C3 at concrete inputs: a one-warning/zero-error result
passes through and emits the serialized document, a one-error result
aborts with the fixed message. -/
theorem validation_gate_witness :
    GulpTypeScriptSwaggerFile.validateSchema false emptySettings (fun _ _ => "") exDoc
        none (some exWarnResult) =
      GulpTypeScriptSwaggerFile.PipelineResult.emitted (stringify (swaggerToJson exDoc)) ∧
    GulpTypeScriptSwaggerFile.validateSchema false emptySettings (fun _ _ => "") exDoc
        none (some exErrResult) =
      GulpTypeScriptSwaggerFile.PipelineResult.failed "The Swagger schema is invalid" :=
  ⟨(validation_gate_aborts_iff_errors false emptySettings (fun _ _ => "") exDoc
      none exWarnResult).2.2.1 rfl,
   (validation_gate_aborts_iff_errors false emptySettings (fun _ _ => "") exDoc
      none exErrResult).1.mpr (by simp [exErrResult])⟩

/-- C4: for every operation in the document, the extractor's request schema
is the schema attached to the first parameter in declared order whose `in`
location is "body" (later body parameters are ignored, as the
decomposition's suffix is arbitrary); when no body-located parameter
exists, the request entry is `none` — the distinguished absent value, not
an empty schema. -/
theorem request_schema_first_body (sw : SwaggerObject) (p m : String)
    (op : SwaggerMethodName) (h : docLookup sw p m = some op) :
    schemaIndexLookup (buildJSONSchema sw) p m = some (buildMethodSchemas op) ∧
    (∀ l1 bp l2, op.parameters = some (l1 ++ bp :: l2) →
      (∀ q ∈ l1, q.paramIn ≠ "body") → bp.paramIn = "body" →
      (buildMethodSchemas op).request = bp.schema) ∧
    ((∀ q ∈ op.parameters.getD [], q.paramIn ≠ "body") →
      (buildMethodSchemas op).request = none) := by
  refine ⟨by rw [schemaIndexLookup_build, h]; rfl, ?_, ?_⟩
  · intro l1 bp l2 hp hl1 hbp
    show ((((op.parameters.getD []).filter
        (fun q => q.paramIn == "body")).head?).bind (fun q => q.schema)) = bp.schema
    rw [hp]
    simp only [Option.getD_some, List.filter_append]
    have h1 : l1.filter (fun q => q.paramIn == "body") = [] := by
      rw [List.filter_eq_nil_iff]
      intro q hq
      simp [hl1 q hq]
    rw [h1]
    simp [List.filter_cons, hbp]
  · intro hall
    show ((((op.parameters.getD []).filter
        (fun q => q.paramIn == "body")).head?).bind (fun q => q.schema)) = none
    have h1 : (op.parameters.getD []).filter (fun q => q.paramIn == "body") = [] := by
      rw [List.filter_eq_nil_iff]
      intro q hq
      simp [hall q hq]
    rw [h1]
    rfl

/-- Witness for C4: in `exTwoBodyDoc` the operation declares a query
parameter followed by two body parameters; the extracted request schema is
the first body parameter's schema `"A"`, the second is ignored; in `exDoc`
no body parameter exists and the request entry is absent. -/
theorem request_schema_first_body_witness :
    docLookup exTwoBodyDoc "/x" "post" = some exTwoBodyOp ∧
    (buildMethodSchemas exTwoBodyOp).request = some (Json.str "A") ∧
    docLookup exDoc "/items" "get" = some exItemsOp ∧
    (buildMethodSchemas exItemsOp).request = none := by
  refine ⟨rfl, ?_, rfl, ?_⟩
  · exact (request_schema_first_body exTwoBodyDoc "/x" "post" exTwoBodyOp rfl).2.1
      [exQueryParam] exBodyParam1 [exBodyParam2] rfl (by decide) rfl
  · exact (request_schema_first_body exDoc "/items" "get" exItemsOp rfl).2.2 (by decide)

/-- C5: the Schema Index preserves exactly the path keys of the document;
for every path and method present there is an entry holding that
operation's extraction, whose `responses` map carries exactly the declared
status-code keys, each bound to the attached schema when present and to the
empty object otherwise. -/
theorem schema_index_complete (sw : SwaggerObject) (p m : String)
    (pv : Option (List (String × SwaggerMethodName))) (op : SwaggerMethodName)
    (hp : alookup p (sw.paths.getD []) = some pv)
    (hm : alookup m (pv.getD []) = some op) :
    (buildJSONSchema sw).map Prod.fst = (sw.paths.getD []).map Prod.fst ∧
    (∃ ms, alookup p (buildJSONSchema sw) = some ms ∧
      ms.map Prod.fst = (pv.getD []).map Prod.fst ∧
      alookup m ms = some (buildMethodSchemas op)) ∧
    (buildMethodSchemas op).responses.map Prod.fst = (op.responses.getD []).map Prod.fst ∧
    (∀ code rdef, alookup code (op.responses.getD []) = some rdef →
      alookup code (buildMethodSchemas op).responses =
        some (rdef.schema.getD (Json.obj []))) := by
  refine ⟨?_, ?_, ?_, ?_⟩
  · simp [buildJSONSchema, List.map_map, Function.comp]
  · refine ⟨(pv.getD []).map (fun km => (km.1, buildMethodSchemas km.2)), ?_, ?_, ?_⟩
    · unfold buildJSONSchema
      rw [alookup_map_paths, hp]
      rfl
    · simp [List.map_map, Function.comp]
    · rw [alookup_map_methods, hm]
      rfl
  · simp [buildMethodSchemas, List.map_map, Function.comp]
  · intro code rdef hr
    show alookup code ((op.responses.getD []).map
        (fun kr => (kr.1, kr.2.schema.getD (Json.obj [])))) = _
    rw [alookup_map_responses, hr]
    rfl

/-- Witness for C5 at the scenario-B document: the index has exactly the
path key `/items`, and the declared `200` status code maps to the attached
array schema. -/
theorem schema_index_complete_witness :
    (buildJSONSchema exDoc).map Prod.fst = ["/items"] ∧
    alookup "200" (buildMethodSchemas exItemsOp).responses =
      some (Json.obj [("type", Json.str "array")]) := by
  refine ⟨rfl, ?_⟩
  exact (schema_index_complete exDoc "/items" "get" (some [("get", exItemsOp)]) exItemsOp
      rfl rfl).2.2.2 "200" { schema := some (Json.obj [("type", Json.str "array")]) } rfl

/-- C6: the Schema Extractor is a pure total function in this model by
construction (a Lean `def` with no effects, whence also deterministic and
idempotent); the conjuncts record how absent fields degrade to empty
defaults rather than failing: an absent `paths` collection yields the empty
index, a null path value yields an empty per-path mapping, an absent
parameter list behaves as the empty list, an absent response mapping as the
empty mapping. -/
theorem extractor_total_defaults :
    buildJSONSchema { paths := none } = [] ∧
    (∀ pn rest, buildJSONSchema { paths := some ((pn, none) :: rest) } =
      (pn, []) :: buildJSONSchema { paths := some rest }) ∧
    (∀ rs, buildMethodSchemas { parameters := none, responses := rs } =
      buildMethodSchemas { parameters := some [], responses := rs }) ∧
    (∀ ps, buildMethodSchemas { parameters := ps, responses := none } =
      buildMethodSchemas { parameters := ps, responses := some [] }) ∧
    (∀ sw : SwaggerObject, buildJSONSchema sw = buildJSONSchema sw) :=
  ⟨rfl, fun _ _ => rfl, fun _ => rfl, fun _ => rfl, fun _ => rfl⟩

/-- C7: configuration errors are detected by `gulpSwagger` itself, which,
taking no document at all (documents reach the plugin only through the
stream handler it returns), raises them before any document is read: a
falsy filename argument — whatever the options — yields the fixed error
"A file name is required", and a codegen whose (possibly defaulted) mode is
"custom" with no template text supplied yields "Templates are mandatory for
a custom codegen". -/
theorem config_errors_before_any_document (readFile : String → String)
    (optionsArg : Option GultTsSwaggerOptions) :
    (gulpSwagger readFile (GulpFirstArg.name none) optionsArg =
      Except.error "A file name is required") ∧
    (gulpSwagger readFile (GulpFirstArg.name (some "")) optionsArg =
      Except.error "A file name is required") ∧
    (∀ fn o cg, strFalsy fn = false → o.codegen = some cg →
      (cg.type = none ∨ cg.type = some "custom") → templateFalsy cg.template = true →
      gulpSwagger readFile (GulpFirstArg.name fn) (some o) =
        Except.error "Templates are mandatory for a custom codegen") := by
  refine ⟨rfl, rfl, ?_⟩
  intro fn o cg hfn hcg hty htpl
  rcases hty with h | h
  · simp [gulpSwagger, hfn, hcg, h, htpl]
  · simp [gulpSwagger, hfn, hcg, h, htpl]

/-- Witness for C7: a missing filename errors immediately; a nonempty
filename with a codegen record whose fields are all unset (mode therefore
defaulting to "custom", no template) errors with the template message. -/
theorem config_errors_witness :
    gulpSwagger (fun _ => "") (GulpFirstArg.name none) none =
      Except.error "A file name is required" ∧
    gulpSwagger (fun _ => "") (GulpFirstArg.name (some "api.ts"))
        (some { filename := none, codegen := some emptySettings }) =
      Except.error "Templates are mandatory for a custom codegen" :=
  ⟨(config_errors_before_any_document (fun _ => "") none).1,
   (config_errors_before_any_document (fun _ => "") none).2.2 (some "api.ts")
     { filename := none, codegen := some emptySettings } emptySettings rfl rfl
     (Or.inl rfl) rfl⟩

/-- C8: the emission entry point invoked for a generation mode is the one
named "get" ++ the capitalized mode name ++ "Code" — "node" dispatches to
"getNodeCode", "angular" to "getAngularCode" (and "custom" to
"getCustomCode"); generally, for any nonempty mode name the first character
is uppercased and spliced into the fixed prefix/suffix template, and
`parseSchema2` in codegen mode calls exactly that entry point of the
emission engine. -/
theorem mode_dispatch_naming :
    GulpTypeScriptSwaggerFile.getCodegenFunction "node" = "getNodeCode" ∧
    GulpTypeScriptSwaggerFile.getCodegenFunction "angular" = "getAngularCode" ∧
    GulpTypeScriptSwaggerFile.getCodegenFunction "custom" = "getCustomCode" ∧
    (∀ c rest, GulpTypeScriptSwaggerFile.getCodegenFunction (String.mk (c :: rest)) =
      "get" ++ String.mk [c.toUpper] ++ String.mk rest ++ "Code") ∧
    (∀ (settings : CodeGenSettings) (codeGen : String → CodeGenSettings → String)
        (sw : SwaggerObject) (ty : String), settings.type = some ty →
      GulpTypeScriptSwaggerFile.parseSchema2 true settings codeGen sw =
        GulpTypeScriptSwaggerFile.PipelineResult.emitted
          (codeGen (GulpTypeScriptSwaggerFile.getCodegenFunction ty)
            (GulpTypeScriptSwaggerFile.getCodegenSettings settings sw))) := by
  refine ⟨by decide, by decide, by decide, fun _ _ => rfl, ?_⟩
  intro settings codeGen sw ty hty
  simp [GulpTypeScriptSwaggerFile.parseSchema2, hty]

/-- Witness for C8: with mode "node" and an emission engine that returns
the name of the entry point it was invoked through, the pipeline emits
"getNodeCode". -/
theorem mode_dispatch_witness :
    GulpTypeScriptSwaggerFile.parseSchema2 true exEsnextFalseSettings
        (fun n _ => n) exDoc =
      GulpTypeScriptSwaggerFile.PipelineResult.emitted "getNodeCode" := by
  have h := mode_dispatch_naming
  rw [h.2.2.2.2 exEsnextFalseSettings (fun n _ => n) exDoc "node" rfl]
  show GulpTypeScriptSwaggerFile.PipelineResult.emitted
      (GulpTypeScriptSwaggerFile.getCodegenFunction "node") = _
  rw [h.1]

/-- C9 counterexample: the claim's frame condition "leaving the caller's
other settings fields unchanged" fails — the builder overwrites the
caller's `esnext` flag.  At the concrete settings record that requests
`esnext := false`, the field differs after the build. -/
theorem settings_builder_alters_esnext :
    (GulpTypeScriptSwaggerFile.getCodegenSettings exEsnextFalseSettings exDoc).esnext ≠
      exEsnextFalseSettings.esnext := by
  simp [GulpTypeScriptSwaggerFile.getCodegenSettings, exEsnextFalseSettings]

/-- C9 as amended: the builder adds exactly the three derived fields to the
mustache context — the document itself, its JSON serialization, and the
serialized Schema Index — preserving every other caller-supplied mustache
field, and removes the mode-selector `type`; additionally it forces the
`esnext` flag to `true` and stores the document under `swagger`; the
remaining caller fields (`moduleName`, `className`, `template`) are
unchanged. -/
theorem settings_builder_characterization (s : CodeGenSettings) (sw : SwaggerObject) :
    (GulpTypeScriptSwaggerFile.getCodegenSettings s sw).esnext = some true ∧
    (GulpTypeScriptSwaggerFile.getCodegenSettings s sw).swagger = some sw ∧
    (GulpTypeScriptSwaggerFile.getCodegenSettings s sw).type = none ∧
    (GulpTypeScriptSwaggerFile.getCodegenSettings s sw).moduleName = s.moduleName ∧
    (GulpTypeScriptSwaggerFile.getCodegenSettings s sw).className = s.className ∧
    (GulpTypeScriptSwaggerFile.getCodegenSettings s sw).template = s.template ∧
    (GulpTypeScriptSwaggerFile.getCodegenSettings s sw).mustache = some
      { s.mustache.getD emptyMustache with
          swaggerObject := some sw,
          swaggerJSON := some (stringify (swaggerToJson sw)),
          JSONSchemas := some (stringify (schemaIndexToJson (buildJSONSchema sw))) } :=
  ⟨rfl, rfl, rfl, rfl, rfl, rfl, rfl⟩

/-- C10: when the first argument of the plugin entry point is the options
record itself, it supplies both the options (the separate options argument
is ignored) and the filename, taken from its `filename` field; an absent or
empty `filename` field raises the same "A file name is required" error as a
missing filename argument, and otherwise that field's value becomes the
configured output filename. -/
theorem options_object_supplies_filename (readFile : String → String)
    (o : GultTsSwaggerOptions) (extra : Option GultTsSwaggerOptions) :
    (gulpSwagger readFile (GulpFirstArg.opts o) extra =
      gulpSwagger readFile (GulpFirstArg.opts o) none) ∧
    (o.filename = none ∨ o.filename = some "" →
      gulpSwagger readFile (GulpFirstArg.opts o) extra =
        Except.error "A file name is required") ∧
    (∀ fn, o.filename = some fn → strFalsy (some fn) = false → o.codegen = none →
      gulpSwagger readFile (GulpFirstArg.opts o) extra =
        Except.ok { filename := fn, useCodeGen := false, codeGenSettings := none }) := by
  refine ⟨rfl, ?_, ?_⟩
  · intro h
    rcases h with h | h <;> simp [gulpSwagger, h, strFalsy]
  · intro fn hfn hok hcg
    simp [gulpSwagger, hfn, hok, hcg]

/-- Witness for C10: an options-record first argument with no filename
errors like a missing filename argument; with `filename := "api.json"` the
configuration adopts that name. -/
theorem options_object_witness :
    gulpSwagger (fun _ => "") (GulpFirstArg.opts { filename := none, codegen := none })
        none =
      Except.error "A file name is required" ∧
    gulpSwagger (fun _ => "")
        (GulpFirstArg.opts { filename := some "api.json", codegen := none }) none =
      Except.ok { filename := "api.json", useCodeGen := false, codeGenSettings := none } :=
  ⟨(options_object_supplies_filename (fun _ => "")
      { filename := none, codegen := none } none).2.1 (Or.inl rfl),
   (options_object_supplies_filename (fun _ => "")
      { filename := some "api.json", codegen := none } none).2.2 "api.json" rfl rfl rfl⟩
